import Mathlib

/-!
Verification of `src/streamlit_app.py` (NCREIF query tool).

The development shallowly embeds the Python source:
pure string/list manipulation becomes Lean functions; Python exceptions
become `Except`/`Option PyErr` results (a `some e` / `.error e` value
models an exception propagating, uncaught, to the caller); the two
HTTP oracles (`requests.get` against the NCREIF and Census endpoints)
become explicit function parameters.
-/

/-- Python/JSON values, as produced by `response.json()` and consumed by
`json.dumps`.  Covers the value shapes this program manipulates. -/
inductive Py where
  | null
  | str (s : String)
  | int (n : Int)
  | list (xs : List Py)
  | dict (fields : List (String × Py))
deriving Repr

/-- Python exceptions that the embedded code can raise. -/
inductive PyErr where
  | keyError (k : String)
  | typeError
  | indexError
  | valueError
  | attributeError
  | jsonDecodeError
deriving Repr, DecidableEq

/-- Python `d[k]` on a parsed-JSON value: `KeyError` on a missing key,
`TypeError` when the value is not a dict. -/
def getItem (v : Py) (k : String) : Except PyErr Py :=
  match v with
  | .dict fields =>
    match fields.lookup k with
    | some x => .ok x
    | Option.none => .error (.keyError k)
  | _ => .error .typeError

/-- Python `xs[i]` on a parsed-JSON value (non-negative index). -/
def pyIndex (v : Py) (i : Nat) : Except PyErr Py :=
  match v with
  | .list xs =>
    match xs.get? i with
    | some x => .ok x
    | Option.none => .error .indexError
  | _ => .error .typeError

/-- Iterating a Python value (used for `list.extend`): lists yield their
elements, dicts their keys, strings their characters; other values raise
`TypeError`. -/
def pyIter (v : Py) : Except PyErr (List Py) :=
  match v with
  | .list xs => .ok xs
  | .dict fields => .ok (fields.map (fun kv => Py.str kv.fst))
  | .str s => .ok (s.toList.map (fun c => Py.str (String.mk [c])))
  | _ => .error .typeError

/-- Decimal reading of a digit string, accumulator style. -/
def natOfChars : List Char → Nat → Nat
  | [], acc => acc
  | c :: cs, acc => natOfChars cs (acc * 10 + (c.toNat - 48))

/-- Decimal value of a digit string (e.g. the quarter literal `"20231"`). -/
def natOfString (s : String) : Nat := natOfChars s.toList 0

/-- Whether a string is a non-empty run of decimal digits. -/
def isDigits (s : String) : Bool :=
  !s.toList.isEmpty && s.toList.all (fun c => c.isDigit)

/-- Python `int(v)`: identity on ints, decimal parse on digit strings
(`ValueError` otherwise), `TypeError` on other values. -/
def pyInt (v : Py) : Except PyErr Int :=
  match v with
  | .int n => .ok n
  | .str s => if isDigits s then .ok (Int.ofNat (natOfString s)) else .error .valueError
  | _ => .error .typeError

/-- Comma-space separated join, as `json.dumps` renders containers. -/
def joinComma : List String → String
  | [] => ""
  | [s] => s
  | s :: rest => s ++ ", " ++ joinComma rest

/-- `json.dumps` on the embedded value type (string escaping elided:
the program only serializes records whose strings need no escapes). -/
def pyDumps : Py → String
  | .null => "null"
  | .str s => "\"" ++ s ++ "\""
  | .int n => toString n
  | .list xs => "[" ++ joinComma (xs.attach.map (fun x => pyDumps x.val)) ++ "]"
  | .dict fs => "\x7b" ++ joinComma (fs.attach.map (fun kv => "\"" ++ kv.val.fst ++ "\": " ++ pyDumps kv.val.snd)) ++ "\x7d"
decreasing_by
  · have h := List.sizeOf_lt_of_mem x.property
    simp only [Py.list.sizeOf_spec]
    omega
  · have h := List.sizeOf_lt_of_mem kv.property
    rcases kv with ⟨⟨a, b⟩, hmem⟩
    simp only [Prod.mk.sizeOf_spec] at h
    simp only [Py.dict.sizeOf_spec]
    omega

/-- Python f-string interpolation `f"..{v}.."` of a value. -/
def fstr : Py → String
  | .str s => s
  | .int n => toString n
  | .null => "None"
  | v => pyDumps v

/-! ## NcreifConnector: `ncreif_api` (src/streamlit_app.py lines 29-60) -/

/-- Python `s.split(",")`: the comma-separated components of `s`
(never empty; the empty string splits to `[""]`). -/
def splitCommaAux : List Char → List Char → List String
  | [], cur => [String.mk cur.reverse]
  | c :: cs, cur =>
    if c = ',' then String.mk cur.reverse :: splitCommaAux cs []
    else splitCommaAux cs (c :: cur)

/-- Python `s.split(",")` on a string. -/
def splitComma (s : String) : List String := splitCommaAux s.toList []

/-- One iteration of the nested loop of `ncreif_api`: the data that
determines one upstream GET (lines 39-52).  `cbsa Option.none` is the
no-geography pass. -/
structure SubRequest where
  ptype : String
  cbsa : Option String
  begq : String
  endq : String
deriving Repr, DecidableEq

/-- The `Where=` expression built at lines 41-44: begin bound written
with `>=`, end bound with `<=`, plus the CBSA clause when present. -/
def whereClause (req : SubRequest) : String :=
  let base := "[NPI]=1 and [PropertyType]='" ++ req.ptype ++ "' and [YYYYQ]>=" ++ req.begq ++ " and [YYYYQ] <= " ++ req.endq
  match req.cbsa with
  | some c => base ++ " and [CBSA]='" ++ c ++ "'"
  | Option.none => base

/-- The `GroupBy=` expression chosen at lines 45-47. -/
def groupByClause (req : SubRequest) : String :=
  match req.cbsa with
  | some _ => "[PropertyType],[CBSA],[YYYYQ]"
  | Option.none => "[PropertyType],[YYYYQ]"

/-- The full request URL built at lines 41-49. -/
def buildUrl (req : SubRequest) (user pwd : String) : String :=
  "http://www.ncreif-api.com/API.aspx?KPI=Returns&Where=" ++ whereClause req ++
    "&GroupBy=" ++ groupByClause req ++ "&Format=json&UserName=" ++ user ++ "&password=" ++ pwd

/-- The quarter conjunct of the `Where=` clause, as the upstream filter
engine evaluates it on a record's `[YYYYQ]` value: the clause text uses
`>=` for the begin quarter and `<=` for the end quarter. -/
def quarterFilter (begq endq : String) (q : Nat) : Bool :=
  decide (natOfString begq ≤ q) && decide (q ≤ natOfString endq)

/-- The geography passes of the loop (lines 34-37): the comma-split CBSA
list when `cbsas` is given, otherwise the single `None` pass. -/
def geogs (cbsas : Option String) : List (Option String) :=
  match cbsas with
  | some cs => (splitComma cs).map some
  | Option.none => [Option.none]

/-- The number of geography codes supplied (0 when `cbsas` is absent). -/
def geogCount (cbsas : Option String) : Nat :=
  match cbsas with
  | some cs => (splitComma cs).length
  | Option.none => 0

/-- The nested `for ptype / for cbsa` loop order (lines 39-40). -/
def pairAll (ps : List String) (gs : List (Option String)) (begq endq : String) : List SubRequest :=
  match ps with
  | [] => []
  | p :: rest => gs.map (fun g => ⟨p, g, begq, endq⟩) ++ pairAll rest gs begq endq

/-- All sub-requests one call to `ncreif_api` issues, in issue order. -/
def subRequests (ptypes : String) (cbsas : Option String) (begq endq : String) : List SubRequest :=
  pairAll (splitComma ptypes) (geogs cbsas) begq endq

/-- A `requests.get` response: status code and parsed JSON body. -/
structure HttpResponse where
  status : Nat
  body : Py
deriving Repr

/-- Lines 55: `response.json()['NewDataSet']['Result1']` followed by the
iteration done by `aggregated_data.extend(...)` — direct indexing, so a
body of any other shape raises (`KeyError`/`TypeError`). -/
def parseRecords (body : Py) : Except PyErr (List Py) := do
  let nds ← getItem body "NewDataSet"
  let res ← getItem nds "Result1"
  pyIter res

/-- The records a response contributes when it parses (empty otherwise). -/
def recordsOf (resp : HttpResponse) : List Py :=
  match parseRecords resp.body with
  | .ok recs => recs
  | .error _ => []

/-- Python `f"{cbsa}"` where `cbsa : Option String`. -/
def optText : Option String → String
  | Option.none => "None"
  | some s => s

/-- The message printed at line 58 on a non-200 response. -/
def failMsg (req : SubRequest) : String :=
  "Failed to fetch data for property type " ++ req.ptype ++ " and CBSA " ++ optText req.cbsa

/-- Observable state of one `ncreif_api` run: the `aggregated_data`
accumulator, the stdout messages printed, and the GETs issued. -/
structure RunState where
  data : List Py
  log : List String
  issued : List SubRequest
deriving Repr

/-- The body of the nested loop (lines 39-58), one sub-request at a time.
A `some e` first component models a Python exception escaping the
function (the source has no try/except). -/
def runSubRequests (fetch : SubRequest → HttpResponse) : List SubRequest → RunState → Option PyErr × RunState
  | [], st => (Option.none, st)
  | req :: rest, st =>
    let resp := fetch req
    let st1 : RunState := ⟨st.data, st.log, st.issued ++ [req]⟩
    if resp.status = 200 then
      match parseRecords resp.body with
      | .error e => (some e, st1)
      | .ok recs => runSubRequests fetch rest ⟨st1.data ++ recs, st1.log, st1.issued⟩
    else
      runSubRequests fetch rest ⟨st1.data, st1.log ++ [failMsg req], st1.issued⟩

/-- `ncreif_api(ptypes, cbsas=None, begq='20231', endq='20234')`
(lines 29-60), with `requests.get` abstracted into `fetch` (the oracle
receives the structured query that `buildUrl` serializes).  The Python
return value is the final `data` field; a `some e` first component is an
uncaught exception. -/
def ncreif_api (fetch : SubRequest → HttpResponse) (ptypes : String) (cbsas : Option String)
    (begq endq : String) : Option PyErr × RunState :=
  runSubRequests fetch (subRequests ptypes cbsas begq endq) ⟨[], [], []⟩

/-- `ncreif_api` called with `begq` and `endq` omitted: the Python
defaults `'20231'` and `'20234'` from the signature at line 29 apply. -/
def ncreifApiDefaults (fetch : SubRequest → HttpResponse) (ptypes : String)
    (cbsas : Option String) : Option PyErr × RunState :=
  ncreif_api fetch ptypes cbsas "20231" "20234"

/-- Concatenation of the records of the sub-requests that answered 200,
in issue order (what the loop accumulates when nothing raises). -/
def okRecords (fetch : SubRequest → HttpResponse) : List SubRequest → List Py
  | [] => []
  | req :: rest =>
    (if (fetch req).status = 200 then recordsOf (fetch req) else []) ++ okRecords fetch rest

/-- The failure messages printed for non-200 sub-requests, in issue order. -/
def failLog (fetch : SubRequest → HttpResponse) : List SubRequest → List String
  | [] => []
  | req :: rest =>
    (if (fetch req).status = 200 then [] else [failMsg req]) ++ failLog fetch rest

/-- An upstream returns record, with the fields the `Where=` clause
filters on. -/
structure RawRecord where
  npi : Int
  propertyType : String
  cbsa : String
  yyyyq : Nat
deriving Repr, DecidableEq

/-- Whether a record satisfies the `Where=` clause `whereClause req`,
read as the upstream filter engine does. -/
def clauseMatches (req : SubRequest) (r : RawRecord) : Bool :=
  (r.npi == 1) && (r.propertyType == req.ptype) && quarterFilter req.begq req.endq r.yyyyq &&
    (match req.cbsa with
     | some c => r.cbsa == c
     | Option.none => true)

/-- A record as it appears in the JSON payload. -/
def encodeRecord (r : RawRecord) : Py :=
  .dict [("PropertyType", .str r.propertyType), ("CBSA", .str r.cbsa), ("YYYYQ", .int (Int.ofNat r.yyyyq))]

/-- The documented response envelope around a record list. -/
def okBody (recs : List Py) : Py :=
  .dict [("NewDataSet", .dict [("Result1", .list recs)])]

/-- A faithful upstream over a record database: answers every
sub-request with status 200 and exactly the records matching its
`Where=` clause, wrapped in the documented envelope. -/
def upstream (db : List RawRecord) (req : SubRequest) : HttpResponse :=
  ⟨200, okBody ((db.filter (clauseMatches req)).map encodeRecord)⟩

/-! ## CensusConnector: `census_pop` (src/streamlit_app.py lines 62-65) -/

/-- The Census ACS URL built at line 63. -/
def censusUrl (cbsa year : String) : String :=
  "https://api.census.gov/data/" ++ year ++
    "/acs/acs5?get=B01003_001E,NAME&for=metropolitan%20statistical%20area/micropolitan%20statistical%20area:" ++ cbsa

/-- `census_pop(cbsa, year)` (lines 62-65): one GET, then
`int(r.json()[1][0])`.  `fetchC` maps the request URL to the parsed JSON
body (the source never checks the status code). -/
def census_pop (fetchC : String → Py) (cbsa year : String) : Except PyErr Int := do
  let row ← pyIndex (fetchC (censusUrl cbsa year)) 1
  let cell ← pyIndex row 0
  pyInt cell

/-! ## OrchestrationLoop: `ThreadRunner.run_thread`, `requires_action`
branch (src/streamlit_app.py lines 189-213) -/

/-- The payload of `tool_call.function.arguments`, modelled by the
outcome of `json.loads` on it: either the decoded keyword dict, or a
string that does not parse (on which `json.loads` raises). -/
inductive ArgPayload where
  | wellFormed (args : List (String × Py))
  | malformed
deriving Repr

/-- One entry of `run.required_action.submit_tool_outputs.tool_calls`. -/
structure ToolCall where
  id : String
  name : String
  arguments : ArgPayload
deriving Repr

/-- One entry appended to `tool_outputs` at lines 204-207. -/
structure ToolOutput where
  tool_call_id : String
  output : String
deriving Repr, DecidableEq

/-- The keys of `self.available_functions` (line 143). -/
def availableNames : List String := ["ncreif_api", "census_pop"]

/-- The fallback output for an unregistered tool name (line 202). -/
def placeholderOutput : String := "Raw data placeholder or fetch logic here"

/-- The parameter names of `ncreif_api` (line 29). -/
def ncreifParamNames : List String := ["ptypes", "cbsas", "begq", "endq"]

/-- The parameter names of `census_pop` (line 62). -/
def censusParamNames : List String := ["cbsa", "year"]

/-- Python keyword application `ncreif_api(**args)`: unexpected or
missing-required keywords raise `TypeError`; a non-string `ptypes` (or
non-string, non-null `cbsas`) raises `AttributeError` at `.split(",")`;
absent `begq`/`endq` take the defaults `'20231'`/`'20234'`. -/
def bindNcreifArgs (args : List (String × Py)) :
    Except PyErr (String × Option String × String × String) :=
  if args.all (fun kv => ncreifParamNames.contains kv.fst) then
    match List.lookup "ptypes" args with
    | Option.none => .error .typeError
    | some pv =>
      match pv with
      | .str ptypes =>
        let cbsasE : Except PyErr (Option String) :=
          match List.lookup "cbsas" args with
          | Option.none => .ok Option.none
          | some .null => .ok Option.none
          | some (.str c) => .ok (some c)
          | some _ => .error .attributeError
        match cbsasE with
        | .error e => .error e
        | .ok cbsas =>
          let begq := match List.lookup "begq" args with
            | Option.none => "20231"
            | some v => fstr v
          let endq := match List.lookup "endq" args with
            | Option.none => "20234"
            | some v => fstr v
          .ok (ptypes, cbsas, begq, endq)
      | _ => .error .attributeError
  else .error .typeError

/-- Python keyword application `census_pop(**args)`: both parameters are
required; any value interpolates into the URL via the f-string. -/
def bindCensusArgs (args : List (String × Py)) : Except PyErr (String × String) :=
  if args.all (fun kv => censusParamNames.contains kv.fst) then
    match List.lookup "cbsa" args, List.lookup "year" args with
    | some cv, some yv => .ok (fstr cv, fstr yv)
    | _, _ => .error .typeError
  else .error .typeError

/-- `self.available_functions[function_name](**function_args)`
(line 199): dispatch to the registered callable, binding keyword
arguments and running the connector against its oracle. -/
def invokeTool (fetchN : SubRequest → HttpResponse) (fetchC : String → Py)
    (name : String) (args : List (String × Py)) : Except PyErr Py :=
  if name = "ncreif_api" then
    match bindNcreifArgs args with
    | .error e => .error e
    | .ok (ptypes, cbsas, begq, endq) =>
      match ncreif_api fetchN ptypes cbsas begq endq with
      | (some e, _) => .error e
      | (Option.none, st) => .ok (.list st.data)
  else if name = "census_pop" then
    match bindCensusArgs args with
    | .error e => .error e
    | .ok (cbsa, year) =>
      match census_pop fetchC cbsa year with
      | .error e => .error e
      | .ok n => .ok (.int n)
  else .error (.keyError name)

/-- Line 200: the output submitted for a successful call is the return
value itself when it is a `str`, otherwise its `json.dumps`. -/
def outputOf (v : Py) : String :=
  match v with
  | .str s => s
  | _ => pyDumps v

/-- `json.loads(tool_call.function.arguments)` (line 195): raises
`json.JSONDecodeError` on a malformed payload. -/
def loadArgs : ArgPayload → Except PyErr (List (String × Py))
  | .malformed => .error .jsonDecodeError
  | .wellFormed args => .ok args

/-- Lines 198-202: the membership test on `self.available_functions`,
then either the dispatched call's (possibly dumped) result or the
placeholder string for an unknown name. -/
def toolOutput (fetchN : SubRequest → HttpResponse) (fetchC : String → Py)
    (name : String) (args : List (String × Py)) : Except PyErr String :=
  if availableNames.contains name then
    match invokeTool fetchN fetchC name args with
    | .error e => .error e
    | .ok v => .ok (outputOf v)
  else .ok placeholderOutput

/-- The `requires_action` branch of `ThreadRunner.run_thread`
(lines 190-207): build one `tool_outputs` entry per requested call, in
request order.  A `.error` result models an exception escaping the loop
(the source has no try/except), in which case nothing is submitted. -/
def processToolCalls (fetchN : SubRequest → HttpResponse) (fetchC : String → Py) :
    List ToolCall → Except PyErr (List ToolOutput)
  | [] => .ok []
  | tc :: rest =>
    match loadArgs tc.arguments with
    | .error e => .error e
    | .ok args =>
      match toolOutput fetchN fetchC tc.name args with
      | .error e => .error e
      | .ok out =>
        match processToolCalls fetchN fetchC rest with
        | .error e => .error e
        | .ok outs => .ok (⟨tc.id, out⟩ :: outs)

/-! ## Concrete oracles and records used to instantiate the theorems -/

/-- An NCREIF oracle that always answers 500. -/
def fetchNone : SubRequest → HttpResponse := fun _ => ⟨500, .null⟩

/-- A Census oracle that always answers JSON `null`. -/
def fetchCNull : String → Py := fun _ => .null

/-- An NCREIF oracle that answers 200 with one record for property type
`O` and 500 for every other sub-request. -/
def fetchOneBad : SubRequest → HttpResponse :=
  fun req => if req.ptype = "O" then ⟨200, okBody [.str "rec_O"]⟩ else ⟨500, .null⟩

/-- An NCREIF oracle that always answers 200 with a body that is not the
`NewDataSet.Result1` envelope. -/
def fetchBadShape : SubRequest → HttpResponse := fun _ => ⟨200, .dict []⟩

/-- A Census oracle answering the documented 2-row table. -/
def fetchCTable : String → Py :=
  fun _ => .list [.list [.str "B01003_001E", .str "NAME"],
                  .list [.str "123456", .str "Atlanta, GA"]]

/-- A record lying exactly on the begin quarter of the default range. -/
def rBound : RawRecord := ⟨1, "O", "", 20231⟩

/-- A CBSA-tagged record lying exactly on the begin quarter. -/
def rBoundG : RawRecord := ⟨1, "A", "19100", 20231⟩

/-! ## Helper lemmas -/

theorem parseRecords_okBody (recs : List Py) : parseRecords (okBody recs) = .ok recs := by
  simp [parseRecords, okBody, getItem, pyIter, List.lookup, bind, Except.bind]

theorem runSubRequests_wf_eq (fetch : SubRequest → HttpResponse) (reqs : List SubRequest)
    (st : RunState)
    (hwf : ∀ req ∈ reqs, (fetch req).status = 200 →
      ∃ recs, parseRecords (fetch req).body = Except.ok recs) :
    runSubRequests fetch reqs st =
      (Option.none, ⟨st.data ++ okRecords fetch reqs, st.log ++ failLog fetch reqs,
        st.issued ++ reqs⟩) := by
  induction reqs generalizing st with
  | nil => simp [runSubRequests, okRecords, failLog]
  | cons req rest ih =>
    have htail : ∀ r ∈ rest, (fetch r).status = 200 →
        ∃ recs, parseRecords (fetch r).body = Except.ok recs :=
      fun r hr => hwf r (List.mem_cons_of_mem _ hr)
    by_cases h200 : (fetch req).status = 200
    · obtain ⟨recs, hrecs⟩ := hwf req (List.mem_cons_self _ _) h200
      simp only [runSubRequests, h200, if_true, hrecs]
      rw [ih _ htail]
      simp [okRecords, failLog, h200, recordsOf, hrecs, List.append_assoc]
    · simp only [runSubRequests, h200, if_false]
      rw [ih _ htail]
      simp [okRecords, failLog, h200, List.append_assoc]

theorem okRecords_append (fetch : SubRequest → HttpResponse) (a b : List SubRequest) :
    okRecords fetch (a ++ b) = okRecords fetch a ++ okRecords fetch b := by
  induction a with
  | nil => simp [okRecords]
  | cons req rest ih => simp [okRecords, ih, List.append_assoc]

theorem failLog_append (fetch : SubRequest → HttpResponse) (a b : List SubRequest) :
    failLog fetch (a ++ b) = failLog fetch a ++ failLog fetch b := by
  induction a with
  | nil => simp [failLog]
  | cons req rest ih => simp [failLog, ih, List.append_assoc]

theorem splitCommaAux_ne_nil (cs : List Char) (cur : List Char) : splitCommaAux cs cur ≠ [] := by
  induction cs generalizing cur with
  | nil => simp [splitCommaAux]
  | cons c rest ih =>
    by_cases hc : c = ','
    · simp [splitCommaAux, hc]
    · simpa [splitCommaAux, hc] using ih (c :: cur)

theorem splitComma_ne_nil (s : String) : splitComma s ≠ [] := splitCommaAux_ne_nil _ _

theorem pairAll_length (ps : List String) (gs : List (Option String)) (begq endq : String) :
    (pairAll ps gs begq endq).length = ps.length * gs.length := by
  induction ps with
  | nil => simp [pairAll]
  | cons p rest ih => simp [pairAll, ih, Nat.succ_mul, Nat.add_comm]

theorem geogs_length (cbsas : Option String) : (geogs cbsas).length = max 1 (geogCount cbsas) := by
  cases cbsas with
  | none => simp [geogs, geogCount]
  | some cs =>
    have h : 0 < (splitComma cs).length := List.length_pos.mpr (splitComma_ne_nil cs)
    simp [geogs, geogCount, Nat.max_eq_right h]

theorem upstream_wf (db : List RawRecord) :
    ∀ req, (upstream db req).status = 200 →
      ∃ recs, parseRecords (upstream db req).body = Except.ok recs :=
  fun _ _ => ⟨_, parseRecords_okBody _⟩

theorem recordsOf_upstream (db : List RawRecord) (req : SubRequest) :
    recordsOf (upstream db req) = (db.filter (clauseMatches req)).map encodeRecord := by
  simp [recordsOf, upstream, parseRecords_okBody]

theorem mem_okRecords_upstream (db : List RawRecord) (reqs : List SubRequest)
    (req : SubRequest) (r : RawRecord)
    (hreq : req ∈ reqs) (hdb : r ∈ db) (hm : clauseMatches req r = true) :
    encodeRecord r ∈ okRecords (upstream db) reqs := by
  induction reqs with
  | nil => cases hreq
  | cons q rest ih =>
    have h200 : (upstream db q).status = 200 := rfl
    simp only [okRecords, h200, if_true, List.mem_append]
    rcases List.mem_cons.mp hreq with h | h
    · subst h
      exact Or.inl (by rw [recordsOf_upstream]
                       exact List.mem_map_of_mem _ (List.mem_filter.mpr ⟨hdb, hm⟩))
    · exact Or.inr (ih h)

theorem clauseMatches_of_boundary (req : SubRequest) (r : RawRecord)
    (hnpi : r.npi = 1) (hpt : r.propertyType = req.ptype)
    (hcb : req.cbsa = Option.none ∨ req.cbsa = some r.cbsa)
    (hle : natOfString req.begq ≤ natOfString req.endq)
    (hq : r.yyyyq = natOfString req.begq ∨ r.yyyyq = natOfString req.endq) :
    clauseMatches req r = true := by
  have hq1 : natOfString req.begq ≤ r.yyyyq := by rcases hq with h | h <;> omega
  have hq2 : r.yyyyq ≤ natOfString req.endq := by rcases hq with h | h <;> omega
  rcases hcb with hcb | hcb <;>
    simp [clauseMatches, quarterFilter, hnpi, hpt, hcb, hq1, hq2]

theorem failLog_eq_nil (fetch : SubRequest → HttpResponse) (reqs : List SubRequest)
    (h : ∀ req ∈ reqs, (fetch req).status = 200) : failLog fetch reqs = [] := by
  induction reqs with
  | nil => rfl
  | cons q rest ih =>
    simp [failLog, h q (List.mem_cons_self _ _),
      ih (fun r hr => h r (List.mem_cons_of_mem _ hr))]

theorem fetchOneBad_wf :
    ∀ req, (fetchOneBad req).status = 200 →
      ∃ recs, parseRecords (fetchOneBad req).body = Except.ok recs := by
  intro req h
  by_cases hO : req.ptype = "O"
  · simp only [fetchOneBad, hO, if_true]
    exact ⟨_, parseRecords_okBody _⟩
  · simp [fetchOneBad, hO] at h

/-! ## Claim theorems -/

/-- C1 (counterexample): the claim says a record whose quarter equals
`begin_quarter` is excluded.  On the code the begin bound is written
`>=` (line 41), so against an upstream that faithfully evaluates the
constructed `Where=` clause, a record lying exactly on `begq = 20231`
comes back in the aggregated result — in the no-geography variant and
in the geography variant alike. -/
theorem ncreif_api_begin_quarter_included_cex :
    rBound.yyyyq = natOfString "20231" ∧
    (ncreif_api (upstream [rBound]) "O" Option.none "20231" "20234").snd.data
      = [encodeRecord rBound] ∧
    rBoundG.yyyyq = natOfString "20231" ∧
    (ncreif_api (upstream [rBoundG]) "A" (some "19100") "20231" "20234").snd.data
      = [encodeRecord rBoundG] :=
  ⟨rfl, rfl, rfl, rfl⟩

/-- C1 (amended): the quarter-range filter built by `ncreif_api` is
begin-INCLUSIVE and end-inclusive: against a faithful upstream, a record
whose quarter equals `begq` or equals `endq` (and matches the other
clause fields) is included in the aggregated results, in both the
no-geography and the geography variants, and no exception is raised. -/
theorem ncreif_api_boundary_both_inclusive
    (db : List RawRecord) (ptypes : String) (cbsas : Option String) (begq endq : String)
    (req : SubRequest) (r : RawRecord)
    (hreq : req ∈ subRequests ptypes cbsas begq endq)
    (hdb : r ∈ db) (hnpi : r.npi = 1) (hpt : r.propertyType = req.ptype)
    (hcb : req.cbsa = Option.none ∨ req.cbsa = some r.cbsa)
    (hle : natOfString req.begq ≤ natOfString req.endq)
    (hq : r.yyyyq = natOfString req.begq ∨ r.yyyyq = natOfString req.endq) :
    (ncreif_api (upstream db) ptypes cbsas begq endq).fst = Option.none ∧
    encodeRecord r ∈ (ncreif_api (upstream db) ptypes cbsas begq endq).snd.data := by
  have hrun := runSubRequests_wf_eq (upstream db) (subRequests ptypes cbsas begq endq)
    ⟨[], [], []⟩ (fun q _ hq200 => upstream_wf db q hq200)
  unfold ncreif_api
  rw [hrun]
  refine ⟨rfl, ?_⟩
  simp only [List.nil_append]
  exact mem_okRecords_upstream db _ req r hreq hdb
    (clauseMatches_of_boundary req r hnpi hpt hcb hle hq)

/-- C1 (witness): the amended theorem applied at the concrete default
range with the record `rBound` sitting on the begin quarter. -/
theorem ncreif_api_boundary_both_inclusive_witness :
    (⟨"O", Option.none, "20231", "20234"⟩ : SubRequest)
        ∈ subRequests "O" Option.none "20231" "20234" ∧
    rBound ∈ [rBound] ∧
    rBound.yyyyq = natOfString "20231" ∧
    ((ncreif_api (upstream [rBound]) "O" Option.none "20231" "20234").fst = Option.none ∧
      encodeRecord rBound
        ∈ (ncreif_api (upstream [rBound]) "O" Option.none "20231" "20234").snd.data) :=
  ⟨by decide, by decide, by decide,
    ncreif_api_boundary_both_inclusive [rBound] "O" Option.none "20231" "20234"
      ⟨"O", Option.none, "20231", "20234"⟩ rBound (by decide) (by decide) rfl rfl
      (Or.inl rfl) (by decide) (Or.inl (by decide))⟩

/-- C2: one call to `ncreif_api` issues exactly one GET per
(property type, geography) pair — `|P| × max(1,|G|)` of them, in the
nested-loop order — and, when every 200 response carries the documented
envelope, raises nothing and returns exactly the concatenation of the
records of the sub-requests that answered 200. -/
theorem ncreif_api_fanout_count
    (fetch : SubRequest → HttpResponse) (ptypes : String) (cbsas : Option String)
    (begq endq : String)
    (_hne : ptypes ≠ "")
    (hwf : ∀ req, (fetch req).status = 200 →
      ∃ recs, parseRecords (fetch req).body = Except.ok recs) :
    (ncreif_api fetch ptypes cbsas begq endq).snd.issued
      = subRequests ptypes cbsas begq endq ∧
    (ncreif_api fetch ptypes cbsas begq endq).snd.issued.length
      = (splitComma ptypes).length * max 1 (geogCount cbsas) ∧
    (ncreif_api fetch ptypes cbsas begq endq).fst = Option.none ∧
    (ncreif_api fetch ptypes cbsas begq endq).snd.data
      = okRecords fetch (subRequests ptypes cbsas begq endq) := by
  have hrun := runSubRequests_wf_eq fetch (subRequests ptypes cbsas begq endq) ⟨[], [], []⟩
    (fun req _ h => hwf req h)
  unfold ncreif_api
  rw [hrun]
  refine ⟨by simp, ?_, rfl, by simp⟩
  simp [subRequests, pairAll_length, geogs_length]

/-- C2 (witness): two property types and two CBSA codes give the four
sub-requests of the nested loop. -/
theorem ncreif_api_fanout_count_witness :
    ("O,R" : String) ≠ "" ∧
    ((ncreif_api (upstream []) "O,R" (some "19100,12060") "20231" "20234").snd.issued
        = subRequests "O,R" (some "19100,12060") "20231" "20234" ∧
      (ncreif_api (upstream []) "O,R" (some "19100,12060") "20231" "20234").snd.issued.length
        = (splitComma "O,R").length * max 1 (geogCount (some "19100,12060")) ∧
      (ncreif_api (upstream []) "O,R" (some "19100,12060") "20231" "20234").fst = Option.none ∧
      (ncreif_api (upstream []) "O,R" (some "19100,12060") "20231" "20234").snd.data
        = okRecords (upstream []) (subRequests "O,R" (some "19100,12060") "20231" "20234")) :=
  ⟨by decide,
    ncreif_api_fanout_count (upstream []) "O,R" (some "19100,12060") "20231" "20234"
      (by decide) (fun req h => upstream_wf [] req h)⟩

/-- C3 (counterexample): with `ptypes="O,R"` against an upstream that
answers 200 with one record for `O` and 500 for `R`, the value
`ncreif_api` returns (the `data` field) is exactly the one successful
group `[Py.str "rec_O"]`: the failing pair appears in no typed result —
the only trace of it is the line printed to stdout.  This refutes the
claimed "returns the N-1 successful groups plus one recorded failure
... as a typed result". -/
theorem ncreif_api_failure_only_logged_cex :
    (ncreif_api fetchOneBad "O,R" Option.none "20231" "20234").fst = Option.none ∧
    (ncreif_api fetchOneBad "O,R" Option.none "20231" "20234").snd.data = [Py.str "rec_O"] ∧
    (ncreif_api fetchOneBad "O,R" Option.none "20231" "20234").snd.log
      = ["Failed to fetch data for property type R and CBSA None"] :=
  ⟨rfl, rfl, rfl⟩

/-- C3 (amended): if exactly one of the N sub-requests fails with a
non-200 status (and 200 responses are well-shaped), `ncreif_api` raises
no exception, returns exactly the records of the N-1 successful
sub-requests in order, and the failing pair is only recorded as a single
printed stdout message — it is absent from the returned value. -/
theorem ncreif_api_continue_on_error
    (fetch : SubRequest → HttpResponse) (ptypes : String) (cbsas : Option String)
    (begq endq : String) (pre post : List SubRequest) (bad : SubRequest)
    (hsplit : subRequests ptypes cbsas begq endq = pre ++ bad :: post)
    (hbad : (fetch bad).status ≠ 200)
    (hgood : ∀ req ∈ pre ++ post, (fetch req).status = 200)
    (hwf : ∀ req, (fetch req).status = 200 →
      ∃ recs, parseRecords (fetch req).body = Except.ok recs) :
    (ncreif_api fetch ptypes cbsas begq endq).fst = Option.none ∧
    (ncreif_api fetch ptypes cbsas begq endq).snd.data
      = okRecords fetch pre ++ okRecords fetch post ∧
    (ncreif_api fetch ptypes cbsas begq endq).snd.log = [failMsg bad] ∧
    (pre.length + post.length) + 1 = (subRequests ptypes cbsas begq endq).length := by
  have hpre : ∀ req ∈ pre, (fetch req).status = 200 :=
    fun req hr => hgood req (List.mem_append_left _ hr)
  have hpost : ∀ req ∈ post, (fetch req).status = 200 :=
    fun req hr => hgood req (List.mem_append_right _ hr)
  have hrun := runSubRequests_wf_eq fetch (subRequests ptypes cbsas begq endq) ⟨[], [], []⟩
    (fun req _ h => hwf req h)
  unfold ncreif_api
  rw [hrun]
  refine ⟨rfl, ?_, ?_, ?_⟩
  · simp only [List.nil_append, hsplit, okRecords_append]
    simp [okRecords, hbad]
  · simp only [List.nil_append, hsplit, failLog_append]
    simp [failLog, hbad, failLog_eq_nil fetch pre hpre, failLog_eq_nil fetch post hpost]
  · rw [hsplit]
    simp [List.length_append]
    omega

/-- C3 (witness): the amended theorem at `ptypes="O,R"` with the `R`
sub-request failing. -/
theorem ncreif_api_continue_on_error_witness :
    subRequests "O,R" Option.none "20231" "20234"
        = [(⟨"O", Option.none, "20231", "20234"⟩ : SubRequest)] ++
          (⟨"R", Option.none, "20231", "20234"⟩ : SubRequest) :: [] ∧
    (fetchOneBad ⟨"R", Option.none, "20231", "20234"⟩).status ≠ 200 ∧
    (∀ req ∈ ([(⟨"O", Option.none, "20231", "20234"⟩ : SubRequest)] ++ ([] : List SubRequest)),
      (fetchOneBad req).status = 200) ∧
    ((ncreif_api fetchOneBad "O,R" Option.none "20231" "20234").fst = Option.none ∧
      (ncreif_api fetchOneBad "O,R" Option.none "20231" "20234").snd.data
        = okRecords fetchOneBad [⟨"O", Option.none, "20231", "20234"⟩] ++
          okRecords fetchOneBad [] ∧
      (ncreif_api fetchOneBad "O,R" Option.none "20231" "20234").snd.log
        = [failMsg ⟨"R", Option.none, "20231", "20234"⟩] ∧
      (List.length [(⟨"O", Option.none, "20231", "20234"⟩ : SubRequest)] +
          List.length ([] : List SubRequest)) + 1
        = (subRequests "O,R" Option.none "20231" "20234").length) :=
  ⟨by decide, by decide, by decide,
    ncreif_api_continue_on_error fetchOneBad "O,R" Option.none "20231" "20234"
      [⟨"O", Option.none, "20231", "20234"⟩] [] ⟨"R", Option.none, "20231", "20234"⟩
      (by decide) (by decide) (by decide) fetchOneBad_wf⟩

/-- C4 (counterexample): the claim says a malformed argument payload is
downgraded to `InvalidArgumentsError` and reported back as the call's
tool output.  On the code, `json.loads` at line 195 raises and nothing
catches it: the loop dies with the exception and submits no output at
all (the source defines no `InvalidArgumentsError` anywhere). -/
theorem processToolCalls_malformed_crash_cex :
    processToolCalls fetchNone fetchCNull [⟨"call_1", "ncreif_api", ArgPayload.malformed⟩]
      = .error .jsonDecodeError := rfl

/-- C4 (amended): a malformed argument payload makes the loop raise an
uncaught `json.JSONDecodeError`, and a well-formed payload missing the
required `ptypes` argument makes the dispatched call raise an uncaught
`TypeError`; in both cases no tool output is produced for the provider
and no upstream network call is reached (the result is the same for
every pair of network oracles). -/
theorem processToolCalls_bad_args_raise
    (fetchN fetchN2 : SubRequest → HttpResponse) (fetchC fetchC2 : String → Py)
    (tcId tcId2 name : String) (rest rest2 : List ToolCall)
    (args : List (String × Py))
    (hmiss : List.lookup "ptypes" args = Option.none)
    (hkeys : args.all (fun kv => ncreifParamNames.contains kv.fst) = true) :
    processToolCalls fetchN fetchC (⟨tcId, name, ArgPayload.malformed⟩ :: rest)
      = .error .jsonDecodeError ∧
    processToolCalls fetchN2 fetchC2 (⟨tcId2, "ncreif_api", ArgPayload.wellFormed args⟩ :: rest2)
      = .error .typeError := by
  constructor
  · rfl
  · have hbind : bindNcreifArgs args = .error .typeError := by
      unfold bindNcreifArgs
      rw [hkeys, hmiss]
      rfl
    simp [processToolCalls, loadArgs, toolOutput, invokeTool, availableNames, hbind]

/-- C4 (witness): the amended theorem at a malformed payload and at the
empty keyword dict (which lacks `ptypes`). -/
theorem processToolCalls_bad_args_raise_witness :
    List.lookup "ptypes" ([] : List (String × Py)) = Option.none ∧
    ([] : List (String × Py)).all (fun kv => ncreifParamNames.contains kv.fst) = true ∧
    (processToolCalls fetchNone fetchCNull [⟨"call_1", "ncreif_api", ArgPayload.malformed⟩]
        = .error .jsonDecodeError ∧
      processToolCalls fetchNone fetchCNull [⟨"call_2", "ncreif_api", ArgPayload.wellFormed []⟩]
        = .error .typeError) :=
  ⟨rfl, rfl,
    processToolCalls_bad_args_raise fetchNone fetchNone fetchCNull fetchCNull
      "call_1" "call_2" "ncreif_api" [] [] [] rfl rfl⟩

/-- C5 (counterexample): the claim says an unregistered tool name fails
with `UnknownToolError`.  On the code (lines 201-202) the `else` branch
of the membership test neither fails nor raises: it submits the fixed
placeholder string as the call's output (the source defines no
`UnknownToolError` anywhere). -/
theorem processToolCalls_unknown_tool_cex :
    "foo" ∉ availableNames ∧
    processToolCalls fetchNone fetchCNull [⟨"call_9", "foo", ArgPayload.wellFormed []⟩]
      = .ok [⟨"call_9", placeholderOutput⟩] :=
  ⟨by decide, rfl⟩

/-- C5 (amended): for a tool-call request whose name is not registered,
the loop invokes no registered callable (the result is the same for
every pair of network oracles) and submits the placeholder string
`"Raw data placeholder or fetch logic here"` as that call's output,
raising no error. -/
theorem processToolCalls_unknown_tool_placeholder
    (fetchN : SubRequest → HttpResponse) (fetchC : String → Py)
    (tcId name : String) (args : List (String × Py))
    (h : name ∉ availableNames) :
    processToolCalls fetchN fetchC [⟨tcId, name, ArgPayload.wellFormed args⟩]
      = .ok [⟨tcId, placeholderOutput⟩] := by
  simp [processToolCalls, loadArgs, toolOutput, h]

/-- C5 (witness): the amended theorem at the unregistered name
`"tbd_tool"`. -/
theorem processToolCalls_unknown_tool_placeholder_witness :
    "tbd_tool" ∉ availableNames ∧
    processToolCalls fetchOneBad fetchCTable
        [⟨"call_7", "tbd_tool", ArgPayload.wellFormed [("x", Py.int 1)]⟩]
      = .ok [⟨"call_7", placeholderOutput⟩] :=
  ⟨by decide,
    processToolCalls_unknown_tool_placeholder fetchOneBad fetchCTable "call_7" "tbd_tool"
      [("x", Py.int 1)] (by decide)⟩

/-- C6 (counterexample): the claim says a payload of a shape other than
`NewDataSet.Result1` is treated as a typed parse failure rather than an
uncaught exception.  On the code (line 55) the shape is unwrapped by
direct indexing with no try/except, so a 200 response whose body is an
empty object raises `KeyError('NewDataSet')`, which escapes `ncreif_api`
and then escapes the orchestration loop as well. -/
theorem ncreif_api_parse_keyerror_cex :
    (ncreif_api fetchBadShape "O" Option.none "20231" "20234").fst
      = some (PyErr.keyError "NewDataSet") ∧
    processToolCalls fetchBadShape fetchCNull
        [⟨"call_3", "ncreif_api", ArgPayload.wellFormed [("ptypes", Py.str "O")]⟩]
      = .error (PyErr.keyError "NewDataSet") :=
  ⟨rfl, rfl⟩

/-- C6 (amended): the connector unwraps exactly the
`NewDataSet.Result1` path — the documented envelope parses to its
record list — but a 200 payload of any other shape makes the indexing
raise, and the exception propagates out of `ncreif_api` uncaught: the
call yields no aggregated data and no typed failure result. -/
theorem ncreif_api_unwrap_path
    (recs : List Py) (fetch : SubRequest → HttpResponse) (ptypes : String)
    (cbsas : Option String) (begq endq : String) (req : SubRequest)
    (rest : List SubRequest) (body : Py) (e : PyErr)
    (hsub : subRequests ptypes cbsas begq endq = req :: rest)
    (hresp : fetch req = ⟨200, body⟩)
    (hbad : parseRecords body = .error e) :
    parseRecords (okBody recs) = .ok recs ∧
    (ncreif_api fetch ptypes cbsas begq endq).fst = some e ∧
    (ncreif_api fetch ptypes cbsas begq endq).snd.data = [] := by
  refine ⟨parseRecords_okBody recs, ?_, ?_⟩ <;>
  · unfold ncreif_api
    rw [hsub]
    simp [runSubRequests, hresp, hbad]

/-- C6 (witness): the amended theorem at a 200 response carrying an
empty JSON object. -/
theorem ncreif_api_unwrap_path_witness :
    subRequests "O" Option.none "20231" "20234"
      = (⟨"O", Option.none, "20231", "20234"⟩ : SubRequest) :: [] ∧
    fetchBadShape ⟨"O", Option.none, "20231", "20234"⟩ = ⟨200, Py.dict []⟩ ∧
    parseRecords (Py.dict []) = .error (PyErr.keyError "NewDataSet") ∧
    (parseRecords (okBody [Py.str "rec"]) = .ok [Py.str "rec"] ∧
      (ncreif_api fetchBadShape "O" Option.none "20231" "20234").fst
        = some (PyErr.keyError "NewDataSet") ∧
      (ncreif_api fetchBadShape "O" Option.none "20231" "20234").snd.data = []) :=
  ⟨by decide, rfl, rfl,
    ncreif_api_unwrap_path [Py.str "rec"] fetchBadShape "O" Option.none "20231" "20234"
      ⟨"O", Option.none, "20231", "20234"⟩ [] (Py.dict []) (PyErr.keyError "NewDataSet")
      (by decide) rfl rfl⟩

/-- C7: for a demographic-API response shaped as a header row plus one
data row of strings, `census_pop` returns the first data row's first
column converted to a number (`int(r.json()[1][0])`, line 65). -/
theorem census_pop_first_cell
    (fetchC : String → Py) (cbsa year : String) (hdr : List String)
    (c0 : String) (rowRest : List String)
    (hresp : fetchC (censusUrl cbsa year)
      = Py.list [Py.list (hdr.map Py.str), Py.list ((c0 :: rowRest).map Py.str)])
    (hnum : isDigits c0 = true) :
    census_pop fetchC cbsa year = .ok (Int.ofNat (natOfString c0)) := by
  simp [census_pop, hresp, pyIndex, pyInt, hnum, bind, Except.bind]

/-- C7 (witness): the theorem at a concrete ACS population response. -/
theorem census_pop_first_cell_witness :
    fetchCTable (censusUrl "12060" "2022")
      = Py.list [Py.list (["B01003_001E", "NAME"].map Py.str),
                 Py.list (("123456" :: ["Atlanta, GA"]).map Py.str)] ∧
    isDigits "123456" = true ∧
    census_pop fetchCTable "12060" "2022" = .ok (Int.ofNat (natOfString "123456")) :=
  ⟨rfl, by decide,
    census_pop_first_cell fetchCTable "12060" "2022" ["B01003_001E", "NAME"] "123456"
      ["Atlanta, GA"] rfl (by decide)⟩

/-- C8: whenever the `requires_action` branch completes and submits its
outputs, it submits exactly one output per requested tool call, and the
submitted outputs carry the requested calls' ids in the same order. -/
theorem processToolCalls_outputs_aligned
    (fetchN : SubRequest → HttpResponse) (fetchC : String → Py)
    (calls : List ToolCall) (outs : List ToolOutput)
    (h : processToolCalls fetchN fetchC calls = .ok outs) :
    outs.length = calls.length ∧
    outs.map (fun o => o.tool_call_id) = calls.map (fun c => c.id) := by
  induction calls generalizing outs with
  | nil =>
    simp only [processToolCalls, Except.ok.injEq] at h
    subst h
    simp
  | cons tc rest ih =>
    simp only [processToolCalls] at h
    split at h
    · exact Except.noConfusion h
    · split at h
      · exact Except.noConfusion h
      · split at h
        · exact Except.noConfusion h
        · rename_i heq
          simp only [Except.ok.injEq] at h
          subst h
          obtain ⟨h1, h2⟩ := ih _ heq
          simp [h1, h2]

/-- C8 (witness): a turn requesting two tool calls whose outputs are
both produced, with matching ids in order. -/
theorem processToolCalls_outputs_aligned_witness :
    processToolCalls fetchNone fetchCNull
        [⟨"call_a", "tool_x", ArgPayload.wellFormed []⟩,
         ⟨"call_b", "tool_y", ArgPayload.wellFormed []⟩]
      = .ok [⟨"call_a", placeholderOutput⟩, ⟨"call_b", placeholderOutput⟩] ∧
    ([(⟨"call_a", placeholderOutput⟩ : ToolOutput), ⟨"call_b", placeholderOutput⟩].length
        = [(⟨"call_a", "tool_x", ArgPayload.wellFormed []⟩ : ToolCall),
           ⟨"call_b", "tool_y", ArgPayload.wellFormed []⟩].length ∧
      [(⟨"call_a", placeholderOutput⟩ : ToolOutput), ⟨"call_b", placeholderOutput⟩].map
          (fun o => o.tool_call_id)
        = [(⟨"call_a", "tool_x", ArgPayload.wellFormed []⟩ : ToolCall),
           ⟨"call_b", "tool_y", ArgPayload.wellFormed []⟩].map (fun c => c.id)) :=
  ⟨rfl,
    processToolCalls_outputs_aligned fetchNone fetchCNull
      [⟨"call_a", "tool_x", ArgPayload.wellFormed []⟩,
       ⟨"call_b", "tool_y", ArgPayload.wellFormed []⟩]
      [⟨"call_a", placeholderOutput⟩, ⟨"call_b", placeholderOutput⟩] rfl⟩

/-- C9: when a call binds `ncreif_api`'s keyword arguments without
`begq` and `endq`, the signature defaults `'20231'` and `'20234'`
(line 29) apply, and the constructed upstream filter on the default
range is `[YYYYQ]>=20231 and [YYYYQ] <= 20234`, denoting the inclusive
interval 20231..20234. -/
theorem ncreif_api_default_range
    (args : List (String × Py)) (pt : String) (cb : Option String) (bq eq2 : String)
    (ptype : String) (q : Nat)
    (hb : List.lookup "begq" args = Option.none)
    (he : List.lookup "endq" args = Option.none)
    (hbind : bindNcreifArgs args = .ok (pt, cb, bq, eq2)) :
    bq = "20231" ∧ eq2 = "20234" ∧
    (quarterFilter "20231" "20234" q = true ↔ (20231 ≤ q ∧ q ≤ 20234)) ∧
    whereClause ⟨ptype, Option.none, "20231", "20234"⟩
      = "[NPI]=1 and [PropertyType]='" ++ ptype ++ "' and [YYYYQ]>=20231 and [YYYYQ] <= 20234" := by
  have hdef : bq = "20231" ∧ eq2 = "20234" := by
    unfold bindNcreifArgs at hbind
    rw [hb, he] at hbind
    repeat' split at hbind
    all_goals first
      | exact Except.noConfusion hbind
      | (simp only [Except.ok.injEq, Prod.mk.injEq] at hbind
         exact ⟨hbind.2.2.1.symm, hbind.2.2.2.symm⟩)
      | (rename_i heqx
         exact Option.noConfusion heqx)
  have h1 : natOfString "20231" = 20231 := by decide
  have h2 : natOfString "20234" = 20234 := by decide
  refine ⟨hdef.1, hdef.2, ?_, ?_⟩
  · simp [quarterFilter, h1, h2, Bool.and_eq_true, decide_eq_true_eq]
  · simp [whereClause, String.append_assoc]

/-- C9 (witness): the theorem at the keyword dict `{"ptypes": "O"}`. -/
theorem ncreif_api_default_range_witness :
    List.lookup "begq" [("ptypes", Py.str "O")] = Option.none ∧
    List.lookup "endq" [("ptypes", Py.str "O")] = Option.none ∧
    bindNcreifArgs [("ptypes", Py.str "O")] = .ok ("O", Option.none, "20231", "20234") ∧
    (("20231" : String) = "20231" ∧ ("20234" : String) = "20234" ∧
      (quarterFilter "20231" "20234" 20232 = true ↔ (20231 ≤ 20232 ∧ 20232 ≤ 20234)) ∧
      whereClause ⟨"A", Option.none, "20231", "20234"⟩
        = "[NPI]=1 and [PropertyType]='" ++ "A" ++ "' and [YYYYQ]>=20231 and [YYYYQ] <= 20234") :=
  ⟨rfl, rfl, rfl,
    ncreif_api_default_range [("ptypes", Py.str "O")] "O" Option.none "20231" "20234"
      "A" 20232 rfl rfl rfl⟩

/-- C10: for a successfully invoked registered tool call, the output
submitted for that call is the callable's return value itself when that
value is a string, and its `json.dumps` serialization otherwise
(line 200). -/
theorem processToolCalls_output_serialization
    (fetchN : SubRequest → HttpResponse) (fetchC : String → Py)
    (tcId name : String) (args : List (String × Py)) (v : Py)
    (rest : List ToolCall) (outs : List ToolOutput)
    (hreg : name ∈ availableNames)
    (hinv : invokeTool fetchN fetchC name args = .ok v)
    (hrun : processToolCalls fetchN fetchC
      (⟨tcId, name, ArgPayload.wellFormed args⟩ :: rest) = .ok outs) :
    ∃ tail, outs = ⟨tcId, outputOf v⟩ :: tail ∧
      (∀ s, v = Py.str s → outputOf v = s) ∧
      ((∀ s, v ≠ Py.str s) → outputOf v = pyDumps v) ∧
      processToolCalls fetchN fetchC rest = .ok tail := by
  have hto : toolOutput fetchN fetchC name args = .ok (outputOf v) := by
    simp [toolOutput, hreg, hinv]
  simp only [processToolCalls, loadArgs, hto] at hrun
  split at hrun
  · exact Except.noConfusion hrun
  · rename_i heq
    simp only [Except.ok.injEq] at hrun
    subst hrun
    refine ⟨_, rfl, ?_, ?_, heq⟩
    · intro s hs
      subst hs
      rfl
    · intro h
      cases v with
      | str s => exact absurd rfl (h s)
      | null => rfl
      | int n => rfl
      | list xs => rfl
      | dict fs => rfl

/-- C10 (witness): a `census_pop` call returning the non-string value
`123456`, whose submitted output is its `json.dumps`. -/
theorem processToolCalls_output_serialization_witness :
    ("census_pop" : String) ∈ availableNames ∧
    invokeTool fetchOneBad fetchCTable "census_pop"
        [("cbsa", Py.str "12060"), ("year", Py.str "2022")] = .ok (Py.int 123456) ∧
    processToolCalls fetchOneBad fetchCTable
        [⟨"call_5", "census_pop",
          ArgPayload.wellFormed [("cbsa", Py.str "12060"), ("year", Py.str "2022")]⟩]
      = .ok [⟨"call_5", pyDumps (Py.int 123456)⟩] ∧
    (∃ tail, [(⟨"call_5", pyDumps (Py.int 123456)⟩ : ToolOutput)]
        = ⟨"call_5", outputOf (Py.int 123456)⟩ :: tail ∧
      (∀ s, Py.int 123456 = Py.str s → outputOf (Py.int 123456) = s) ∧
      ((∀ s, Py.int 123456 ≠ Py.str s) →
        outputOf (Py.int 123456) = pyDumps (Py.int 123456)) ∧
      processToolCalls fetchOneBad fetchCTable [] = .ok tail) :=
  ⟨by decide, rfl, rfl,
    processToolCalls_output_serialization fetchOneBad fetchCTable "call_5" "census_pop"
      [("cbsa", Py.str "12060"), ("year", Py.str "2022")] (Py.int 123456) []
      [⟨"call_5", pyDumps (Py.int 123456)⟩] (by decide) rfl rfl⟩
